import Mathlib

/-!
Verification of the JSON-RPC / SSE protocol layer implemented in
src/api/index.js (a Model-Context-Protocol style server).

The JavaScript source is shallowly embedded: JavaScript values are the
inductive type JsValue (with an explicit undefined), property access is
getField (throwing a TypeError, modelled as Except, on null and
undefined receivers), and each function of the source file becomes a
Lean definition of the same name.  Fallible evaluation is Except
JsError; a .error outcome means the JavaScript code threw.
-/

set_option autoImplicit false

namespace GhlMcp

/-- A JavaScript runtime value as it occurs in this program: the JSON
values plus the distinguished undefined.  Numbers are modelled as
integers (every numeric literal in the source is an integer and no
arithmetic is performed on them). -/
inductive JsValue where
  | undefined : JsValue
  | null : JsValue
  | bool (b : Bool) : JsValue
  | num (n : Int) : JsValue
  | str (s : String) : JsValue
  | arr (elems : List JsValue) : JsValue
  | obj (fields : List (String × JsValue)) : JsValue

/-- A thrown JavaScript exception, reduced to its message string (the
only part the program observes, via error.message). -/
structure JsError where
  message : String
deriving DecidableEq, Repr

/-- First binding of a key in an object literal, in field order. -/
def lookupField : List (String × JsValue) → String → Option JsValue
  | [], _ => none
  | (k, v) :: fs, key => if k = key then some v else lookupField fs key

/-- JavaScript property access v[k]: throws a TypeError on null or
undefined receivers, yields undefined for an absent key on an object,
and yields undefined on the remaining primitives (none of the keys this
program reads exists on a primitive wrapper or an array). -/
def getField : JsValue → String → Except JsError JsValue
  | .undefined, k => .error ⟨"Cannot read properties of undefined (reading " ++ k ++ ")"⟩
  | .null, k => .error ⟨"Cannot read properties of null (reading " ++ k ++ ")"⟩
  | .obj fs, k => .ok ((lookupField fs k).getD .undefined)
  | _, _ => .ok .undefined

/-- JavaScript truthiness on our value domain (NaN does not arise:
numbers are integers here). -/
def truthy : JsValue → Bool
  | .undefined => false
  | .null => false
  | .bool b => b
  | .num n => n != 0
  | .str s => s != ""
  | .arr _ => true
  | .obj _ => true

/-- Strict equality of a value against a string literal, as in the
switch and if comparisons of the source (=== / !== against a string):
true exactly on the equal string. -/
def isStr (v : JsValue) (s : String) : Bool :=
  match v with
  | .str t => t = s
  | _ => false

/-- String conversion used by template literals.  Arrays convert by
joining the converted elements with commas, null and undefined
elements becoming empty (Array.prototype.toString); objects convert to
the usual [object Object] tag. -/
def toDisplay : JsValue → String
  | .undefined => "undefined"
  | .null => "null"
  | .bool b => cond b "true" "false"
  | .num n => toString n
  | .str s => s
  | .arr xs => toDisplayList xs
  | .obj _ => "[object Object]"
where
  /-- Comma join of an array, as in Array.prototype.join. -/
  toDisplayList : List JsValue → String
  | [] => ""
  | v :: vs =>
    (match v with
     | .undefined => ""
     | .null => ""
     | w => toDisplay w)
    ++ (match vs with | [] => "" | _ :: _ => ",")
    ++ toDisplayList vs

def MCP_PROTOCOL_VERSION : String := "2024-11-05"

def SERVER_INFO : JsValue :=
  .obj [("name", .str "ghl-mcp-server"), ("version", .str "1.0.0")]

/-- The module-level tool catalog, translated literally from the TOOLS
constant of the source.  It is a Lean constant: nothing in the
embedding (and nothing in the source) ever writes to it after module
load. -/
def TOOLS : List JsValue :=
  [ .obj
      [ ("name", .str "search"),
        ("description", .str "Search for information in GoHighLevel CRM system"),
        ("inputSchema", .obj
          [ ("type", .str "object"),
            ("properties", .obj
              [ ("query", .obj
                  [ ("type", .str "string"),
                    ("description", .str "Search query for GoHighLevel data") ]) ]),
            ("required", .arr [.str "query"]) ]) ],
    .obj
      [ ("name", .str "retrieve"),
        ("description", .str "Retrieve specific data from GoHighLevel"),
        ("inputSchema", .obj
          [ ("type", .str "object"),
            ("properties", .obj
              [ ("id", .obj
                  [ ("type", .str "string"),
                    ("description", .str "ID of the item to retrieve") ]),
                ("type", .obj
                  [ ("type", .str "string"),
                    ("enum", .arr [.str "contact", .str "conversation", .str "blog"]),
                    ("description", .str "Type of item to retrieve") ]) ]),
            ("required", .arr [.str "id", .str "type"]) ]) ] ]

/-- Stand-in for new Date().toISOString() in the retrieve text: the
wall clock is external input; no claim observes the produced text, only
its presence. -/
def nowISO : String := "1970-01-01T00:00:00.000Z"

/-- createJsonRpcResponse(id, result = null, error = null): builds
the envelope with fields in insertion order jsonrpc, id, then error if
the error argument is truthy, else result. -/
def createJsonRpcResponse (id result error : JsValue) : JsValue :=
  if truthy error then
    .obj [("jsonrpc", .str "2.0"), ("id", id), ("error", error)]
  else
    .obj [("jsonrpc", .str "2.0"), ("id", id), ("result", result)]

/-- createJsonRpcNotification(method, params = \x7b\x7d). -/
def createJsonRpcNotification (method params : JsValue) : JsValue :=
  .obj [("jsonrpc", .str "2.0"), ("method", method), ("params", params)]

/-- An error object literal without a data field, as in the -32600 and
-32601 sites of the source. -/
def mkError (code : Int) (m : String) : JsValue :=
  .obj [("code", .num code), ("message", .str m)]

/-- An error object literal with a data field, as in the catch block
of processJsonRpcMessage. -/
def mkErrorData (code : Int) (m : String) (d : JsValue) : JsValue :=
  .obj [("code", .num code), ("message", .str m), ("data", d)]

/-- handleInitialize(request). -/
def handleInitialize (request : JsValue) : Except JsError JsValue :=
  match getField request "id" with
  | .error e => .error e
  | .ok i =>
    .ok (createJsonRpcResponse i
      (.obj
        [ ("protocolVersion", .str MCP_PROTOCOL_VERSION),
          ("capabilities", .obj [("tools", .obj [])]),
          ("serverInfo", SERVER_INFO) ])
      .null)

/-- handleToolsList(request): result is the TOOLS constant itself. -/
def handleToolsList (request : JsValue) : Except JsError JsValue :=
  match getField request "id" with
  | .error e => .error e
  | .ok i => .ok (createJsonRpcResponse i (.obj [("tools", .arr TOOLS)]) .null)

/-- The stubbed search result text, interpolating args.query. -/
def searchText (q : String) : String :=
  "GoHighLevel Search Results for: \"" ++ q ++ "\"\n\n✅ Found Results:\n• Contact: John Doe (john@example.com)\n• Contact: Jane Smith (jane@example.com)\n• Conversation: \"Follow-up call scheduled\"\n• Blog Post: \"How to Generate More Leads\"\n\n📊 Search completed successfully in GoHighLevel CRM."

/-- The stubbed retrieve result text, interpolating args.type, args.id
and the current time. -/
def retrieveText (t i : String) : String :=
  "GoHighLevel " ++ t ++ " Retrieved: ID " ++ i ++ "\n\n📄 Details:\n• Name: Sample " ++ t ++ "\n• Status: Active\n• Last Updated: " ++ nowISO ++ "\n• Source: GoHighLevel CRM\n\n✅ Data retrieved successfully from GoHighLevel."

/-- handleToolsCall(request): destructures request.params (reading
name and arguments, throwing when params is null or undefined), then
branches on the tool name; an unrecognized name yields a -32601 error
response; the two known tools build their text content, reading fields
of args (throwing when args is null or undefined). -/
def handleToolsCall (request : JsValue) : Except JsError JsValue :=
  match getField request "params" with
  | .error e => .error e
  | .ok p =>
    match getField p "name" with
    | .error e => .error e
    | .ok nm =>
      match getField p "arguments" with
      | .error e => .error e
      | .ok args =>
        if isStr nm "search" then
          match getField args "query" with
          | .error e => .error e
          | .ok q =>
            match getField request "id" with
            | .error e => .error e
            | .ok i =>
              .ok (createJsonRpcResponse i
                (.obj [("content", .arr
                  [.obj [("type", .str "text"), ("text", .str (searchText (toDisplay q)))]])])
                .null)
        else if isStr nm "retrieve" then
          match getField args "type" with
          | .error e => .error e
          | .ok t =>
            match getField args "id" with
            | .error e => .error e
            | .ok aid =>
              match getField request "id" with
              | .error e => .error e
              | .ok i =>
                .ok (createJsonRpcResponse i
                  (.obj [("content", .arr
                    [.obj [("type", .str "text"),
                           ("text", .str (retrieveText (toDisplay t) (toDisplay aid)))]])])
                  .null)
        else
          match getField request "id" with
          | .error e => .error e
          | .ok i =>
            .ok (createJsonRpcResponse i .null
              (mkError (-32601) ("Method not found: " ++ toDisplay nm)))

/-- handlePing(request). -/
def handlePing (request : JsValue) : Except JsError JsValue :=
  match getField request "id" with
  | .error e => .error e
  | .ok i => .ok (createJsonRpcResponse i (.obj []) .null)

/-- The try block of processJsonRpcMessage: version gate first (a
jsonrpc field differing from the string 2.0 answers -32600 without
consulting method), then the switch on method, defaulting to -32601. -/
def processTry (message : JsValue) : Except JsError JsValue :=
  match getField message "jsonrpc" with
  | .error e => .error e
  | .ok v =>
    if isStr v "2.0" = false then
      match getField message "id" with
      | .error e => .error e
      | .ok i =>
        .ok (createJsonRpcResponse i .null
          (mkError (-32600) "Invalid Request: jsonrpc must be 2.0"))
    else
      match getField message "method" with
      | .error e => .error e
      | .ok m =>
        if isStr m "initialize" then handleInitialize message
        else if isStr m "tools/list" then handleToolsList message
        else if isStr m "tools/call" then handleToolsCall message
        else if isStr m "ping" then handlePing message
        else
          match getField message "id" with
          | .error e => .error e
          | .ok i =>
            .ok (createJsonRpcResponse i .null
              (mkError (-32601) ("Method not found: " ++ toDisplay m)))

/-- processJsonRpcMessage(message): the try block above, with the
catch clause converting a thrown error into a -32603 response whose
data carries error.message.  The catch clause itself reads message.id,
so it rethrows when message is null or undefined. -/
def processJsonRpcMessage (message : JsValue) : Except JsError JsValue :=
  match processTry message with
  | .ok r => .ok r
  | .error e =>
    match getField message "id" with
    | .error e2 => .error e2
    | .ok i =>
      .ok (createJsonRpcResponse i .null
        (mkErrorData (-32603) "Internal error" (.str e.message)))

/-- The single frame sent on a malformed POST body. -/
def parseErrorResponse : JsValue :=
  createJsonRpcResponse .null .null (mkError (-32700) "Parse error")

/-- The end handler of the POST /sse branch, parameterized by the
outcome of JSON.parse on the accumulated body: the parsed message is
dispatched and its response sent as the only frame; the catch around
both the parse and the dispatch sends the single -32700 frame.  The
returned list is the sequence of SSE data frames written. -/
def handlePostBody (parsed : Except JsError JsValue) : List JsValue :=
  match parsed with
  | .ok json =>
    match processJsonRpcMessage json with
    | .ok response => [response]
    | .error _ => [parseErrorResponse]
  | .error _ => [parseErrorResponse]

/-! ## The GET /sse session (Transport Session Manager)

The GET branch writes the initialized notification immediately, then
schedules three timers: a 100 ms one-shot (tools/list_changed
notification, sent through sendSSE whose try/catch swallows a failed
write), a 25000 ms repeating heartbeat (a bare res.write of the
comment frame), and a 50000 ms one-shot auto-close (clearInterval on
the heartbeat, then res.end).  The close and error handlers each run
clearInterval(heartbeat) and nothing else: the two setTimeout handles
are never cleared.  The model below is that code as a labelled
transition system; an event is the arrival of one of the five
callbacks.  Event order in a trace stands for real-time order, so a
clientClose before notifyElapsed is a disconnect earlier than 100 ms,
and in particular earlier than the 50 s auto-close. -/

/-- A frame written to the event stream. -/
inductive Frame where
  | notif (method : String) : Frame
  | heartbeat : Frame
deriving DecidableEq, Repr

/-- Which timer callback ran. -/
inductive TimerKind where
  | notifyTools : TimerKind
  | heartbeatTimer : TimerKind
  | autoClose : TimerKind
deriving DecidableEq, Repr

/-- Per-connection session state: the three timer handles (live or
not), whether the stream is still up, the frames successfully written,
and the timer callbacks that executed after the stream was torn
down. -/
structure SseState where
  notifyPending : Bool
  heartbeatActive : Bool
  autoClosePending : Bool
  streamOpen : Bool
  written : List Frame
  lateCallbacks : List TimerKind
deriving DecidableEq, Repr

/-- State right after the GET /sse branch runs to its return: the
initialized notification already written, all three timers armed. -/
def sseInit : SseState :=
  { notifyPending := true,
    heartbeatActive := true,
    autoClosePending := true,
    streamOpen := true,
    written := [Frame.notif "notification/initialized"],
    lateCallbacks := [] }

/-- The observable events of the GET session. -/
inductive SseEvent where
  | clientClose : SseEvent
  | streamError : SseEvent
  | notifyElapsed : SseEvent
  | heartbeatElapsed : SseEvent
  | autoCloseElapsed : SseEvent
deriving DecidableEq, Repr

/-- One event, exactly as the source handles it.  close and error run
clearInterval(heartbeat) only (the stream itself is gone, so no later
write can reach the peer).  A one-shot callback only runs while its
handle is pending and consumes it; the interval callback runs as long
as its handle is live.  A callback that runs after the stream is down
writes nothing (sendSSE swallows the failure; res.end on an ended
response is a no-op) and is recorded in lateCallbacks. -/
def sseStep (s : SseState) : SseEvent → SseState
  | .clientClose => { s with heartbeatActive := false, streamOpen := false }
  | .streamError => { s with heartbeatActive := false, streamOpen := false }
  | .notifyElapsed =>
    if s.notifyPending then
      if s.streamOpen then
        { s with notifyPending := false,
                 written := s.written ++ [Frame.notif "notification/tools/list_changed"] }
      else
        { s with notifyPending := false,
                 lateCallbacks := s.lateCallbacks ++ [TimerKind.notifyTools] }
    else s
  | .heartbeatElapsed =>
    if s.heartbeatActive then
      if s.streamOpen then
        { s with written := s.written ++ [Frame.heartbeat] }
      else
        { s with lateCallbacks := s.lateCallbacks ++ [TimerKind.heartbeatTimer] }
    else s
  | .autoCloseElapsed =>
    if s.autoClosePending then
      if s.streamOpen then
        { s with autoClosePending := false, heartbeatActive := false, streamOpen := false }
      else
        { s with autoClosePending := false, heartbeatActive := false,
                 lateCallbacks := s.lateCallbacks ++ [TimerKind.autoClose] }
    else s

/-- Run a sequence of events. -/
def sseRun (s : SseState) (evs : List SseEvent) : SseState :=
  evs.foldl sseStep s

/-! ## JSON round trip (Envelope Codec serialization)

The source serializes a response with JSON.stringify before writing it
as an SSE data frame, and the peer recovers it with JSON.parse.  On
our value domain the composite of the two library functions has a
simple observable semantics: an object field whose value is undefined
is omitted, an undefined array element is written as null, a
top-level undefined is unrepresentable (stringify returns undefined
and parsing that fails), and on every undefined-free value the
composite is the identity.  stringifyParse is that semantics. -/

mutual

/-- True when undefined occurs anywhere inside the value. -/
def hasUndef : JsValue → Bool
  | .undefined => true
  | .null => false
  | .bool _ => false
  | .num _ => false
  | .str _ => false
  | .arr xs => hasUndefList xs
  | .obj fs => hasUndefFields fs

/-- hasUndef over the elements of an array. -/
def hasUndefList : List JsValue → Bool
  | [] => false
  | v :: vs => hasUndef v || hasUndefList vs

/-- hasUndef over the values of an object. -/
def hasUndefFields : List (String × JsValue) → Bool
  | [] => false
  | (_, v) :: fs => hasUndef v || hasUndefFields fs

end

mutual

/-- Normal form of a value under stringify-then-parse, defined on
values other than a top-level undefined. -/
def stripUndef : JsValue → JsValue
  | .undefined => .null
  | .null => .null
  | .bool b => .bool b
  | .num n => .num n
  | .str s => .str s
  | .arr xs => .arr (stripUndefList xs)
  | .obj fs => .obj (stripUndefFields fs)

/-- Array elements: undefined serializes as null. -/
def stripUndefList : List JsValue → List JsValue
  | [] => []
  | .undefined :: vs => .null :: stripUndefList vs
  | v :: vs => stripUndef v :: stripUndefList vs

/-- Object fields: a field whose value is undefined is omitted. -/
def stripUndefFields : List (String × JsValue) → List (String × JsValue)
  | [] => []
  | (_, .undefined) :: fs => stripUndefFields fs
  | (k, v) :: fs => (k, stripUndef v) :: stripUndefFields fs

end

/-- JSON.parse applied to JSON.stringify of the value: fails on a
top-level undefined (stringify yields no string), otherwise yields the
normal form. -/
def stringifyParse : JsValue → Option JsValue
  | .undefined => none
  | v => some (stripUndef v)

/-- Presence of a key on an object value. -/
def hasFieldB (v : JsValue) (k : String) : Bool :=
  match v with
  | .obj fs => (lookupField fs k).isSome
  | _ => false

/-- A well-formed response envelope: an object whose jsonrpc field is
the string 2.0, carrying an id field and exactly one of result and
error. -/
def wellFormedResponse (v : JsValue) : Bool :=
  (match v with
   | .obj fs => isStr ((lookupField fs "jsonrpc").getD .undefined) "2.0"
   | _ => false)
  && hasFieldB v "id"
  && (hasFieldB v "result" != hasFieldB v "error")

/-- The id domain of the protocol: string, number, or null. -/
def IsId (i : JsValue) : Prop :=
  i = .null ∨ (∃ s, i = .str s) ∨ (∃ n, i = .num n)

/-- A ping request carrying no id field: a JSON-RPC notification. -/
def noIdPing : JsValue :=
  .obj [("jsonrpc", .str "2.0"), ("method", .str "ping")]

/-- A ping request with a numeric id. -/
def pingMsg : JsValue :=
  .obj [("jsonrpc", .str "2.0"), ("id", .num 42), ("method", .str "ping")]

/-- A tools/call request with no params field at all. -/
def toolsCallNoParams : JsValue :=
  .obj [("jsonrpc", .str "2.0"), ("method", .str "tools/call"), ("id", .num 7)]

/-- A tools/call request naming the search tool but carrying no
arguments field. -/
def toolsCallNoArgs : JsValue :=
  .obj [("jsonrpc", .str "2.0"), ("method", .str "tools/call"), ("id", .num 8),
        ("params", .obj [("name", .str "search")])]

/-! ## Basic lemmas about the embedding -/

/-- Property access only throws on null and undefined receivers. -/
theorem getField_ok_of_ne (v : JsValue) (k : String) (h1 : v ≠ .null) (h2 : v ≠ .undefined) :
    ∃ w, getField v k = .ok w := by
  cases v with
  | undefined => exact absurd rfl h2
  | null => exact absurd rfl h1
  | bool b => exact ⟨_, rfl⟩
  | num n => exact ⟨_, rfl⟩
  | str s => exact ⟨_, rfl⟩
  | arr xs => exact ⟨_, rfl⟩
  | obj fs => exact ⟨_, rfl⟩

/-- A successful property access means the receiver was not null and
not undefined. -/
theorem ne_of_getField_ok (v w : JsValue) (k : String) (h : getField v k = .ok w) :
    v ≠ .null ∧ v ≠ .undefined := by
  cases v with
  | undefined => exact Except.noConfusion h
  | null => exact Except.noConfusion h
  | bool b => exact ⟨fun hc => JsValue.noConfusion hc, fun hc => JsValue.noConfusion hc⟩
  | num n => exact ⟨fun hc => JsValue.noConfusion hc, fun hc => JsValue.noConfusion hc⟩
  | str s => exact ⟨fun hc => JsValue.noConfusion hc, fun hc => JsValue.noConfusion hc⟩
  | arr xs => exact ⟨fun hc => JsValue.noConfusion hc, fun hc => JsValue.noConfusion hc⟩
  | obj fs => exact ⟨fun hc => JsValue.noConfusion hc, fun hc => JsValue.noConfusion hc⟩

/-- Every envelope built by createJsonRpcResponse echoes its id
argument in the id field. -/
theorem getField_create_id (i a e : JsValue) :
    getField (createJsonRpcResponse i a e) "id" = .ok i := by
  unfold createJsonRpcResponse
  split <;> rfl

/-- Every envelope built by createJsonRpcResponse is well-formed:
jsonrpc is 2.0, the id field is present, and exactly one of result and
error is present. -/
theorem wellFormedResponse_create (i a e : JsValue) :
    wellFormedResponse (createJsonRpcResponse i a e) = true := by
  unfold createJsonRpcResponse
  split <;> rfl

/-- Strict string comparison fails on every value other than the equal
string. -/
theorem isStr_eq_false_of_ne (v : JsValue) (s : String) (h : v ≠ .str s) :
    isStr v s = false := by
  cases v <;> simp_all [isStr]

/-! ## Shape of successful dispatcher results

Every .ok outcome of the try block is createJsonRpcResponse applied to
the id read from the message. -/

/-- Shape of a successful handleInitialize. -/
theorem handleInitialize_shape (m r : JsValue) (h : handleInitialize m = .ok r) :
    ∃ i a e, getField m "id" = .ok i ∧ r = createJsonRpcResponse i a e := by
  unfold handleInitialize at h
  split at h
  · exact Except.noConfusion h
  · rename_i i heq
    injection h with h
    exact ⟨i, _, _, heq, h.symm⟩

/-- Shape of a successful handleToolsList. -/
theorem handleToolsList_shape (m r : JsValue) (h : handleToolsList m = .ok r) :
    ∃ i a e, getField m "id" = .ok i ∧ r = createJsonRpcResponse i a e := by
  unfold handleToolsList at h
  split at h
  · exact Except.noConfusion h
  · rename_i i heq
    injection h with h
    exact ⟨i, _, _, heq, h.symm⟩

/-- Shape of a successful handlePing. -/
theorem handlePing_shape (m r : JsValue) (h : handlePing m = .ok r) :
    ∃ i a e, getField m "id" = .ok i ∧ r = createJsonRpcResponse i a e := by
  unfold handlePing at h
  split at h
  · exact Except.noConfusion h
  · rename_i i heq
    injection h with h
    exact ⟨i, _, _, heq, h.symm⟩

/-- Shape of a successful handleToolsCall. -/
theorem handleToolsCall_shape (m r : JsValue) (h : handleToolsCall m = .ok r) :
    ∃ i a e, getField m "id" = .ok i ∧ r = createJsonRpcResponse i a e := by
  unfold handleToolsCall at h
  split at h
  · exact Except.noConfusion h
  rename_i p hp
  split at h
  · exact Except.noConfusion h
  rename_i nm hnm
  split at h
  · exact Except.noConfusion h
  rename_i args hargs
  split at h
  · -- search branch
    split at h
    · exact Except.noConfusion h
    rename_i q hq
    split at h
    · exact Except.noConfusion h
    rename_i i hid
    injection h with h
    exact ⟨i, _, _, hid, h.symm⟩
  · split at h
    · -- retrieve branch
      split at h
      · exact Except.noConfusion h
      rename_i t ht
      split at h
      · exact Except.noConfusion h
      rename_i aid haid
      split at h
      · exact Except.noConfusion h
      rename_i i hid
      injection h with h
      exact ⟨i, _, _, hid, h.symm⟩
    · -- unknown tool name
      split at h
      · exact Except.noConfusion h
      rename_i i hid
      injection h with h
      exact ⟨i, _, _, hid, h.symm⟩

/-- Shape of a successful try block: the result is an envelope built
on the id read from the message. -/
theorem processTry_ok_shape (msg r : JsValue) (h : processTry msg = .ok r) :
    ∃ i a e, getField msg "id" = .ok i ∧ r = createJsonRpcResponse i a e := by
  unfold processTry at h
  split at h
  · exact Except.noConfusion h
  rename_i v hv
  split at h
  · -- version mismatch
    split at h
    · exact Except.noConfusion h
    rename_i i hid
    injection h with h
    exact ⟨i, _, _, hid, h.symm⟩
  · split at h
    · exact Except.noConfusion h
    rename_i mth hm
    split at h
    · exact handleInitialize_shape msg r h
    split at h
    · exact handleToolsList_shape msg r h
    split at h
    · exact handleToolsCall_shape msg r h
    split at h
    · exact handlePing_shape msg r h
    split at h
    · exact Except.noConfusion h
    rename_i i hid
    injection h with h
    exact ⟨i, _, _, hid, h.symm⟩

/-- Totality of the dispatcher away from null and undefined inputs:
the result is a well-formed response. -/
theorem processJsonRpcMessage_total (msg : JsValue) (h1 : msg ≠ .null) (h2 : msg ≠ .undefined) :
    ∃ r, processJsonRpcMessage msg = .ok r ∧ wellFormedResponse r = true := by
  cases hp : processTry msg with
  | ok r =>
    obtain ⟨i, a, e, _, hr⟩ := processTry_ok_shape msg r hp
    refine ⟨r, ?_, ?_⟩
    · unfold processJsonRpcMessage
      rw [hp]
    · rw [hr]
      exact wellFormedResponse_create i a e
  | error e =>
    obtain ⟨w, hw⟩ := getField_ok_of_ne msg "id" h1 h2
    have heq : processJsonRpcMessage msg
        = .ok (createJsonRpcResponse w .null
            (mkErrorData (-32603) "Internal error" (.str e.message))) := by
      unfold processJsonRpcMessage
      rw [hp, hw]
    exact ⟨_, heq, wellFormedResponse_create _ _ _⟩

/-- Every response the dispatcher returns echoes the id of the message
it answers. -/
theorem processJsonRpcMessage_id_echo (msg r : JsValue)
    (h : processJsonRpcMessage msg = .ok r) :
    getField r "id" = getField msg "id" := by
  unfold processJsonRpcMessage at h
  cases hp : processTry msg with
  | ok r0 =>
    rw [hp] at h
    injection h with h
    obtain ⟨i, a, e, hid, hr⟩ := processTry_ok_shape msg r0 hp
    rw [← h, hr, getField_create_id, hid]
  | error e =>
    rw [hp] at h
    cases hid : getField msg "id" with
    | error e2 =>
      rw [hid] at h
      exact Except.noConfusion h
    | ok i =>
      rw [hid] at h
      injection h with h
      rw [← h, getField_create_id]

/-! ## Round-trip lemmas for the codec -/

/-- Unfolding of stripUndefList on a head element that is not
undefined. -/
theorem stripUndefList_cons_ne (v : JsValue) (vs : List JsValue) (h : v ≠ .undefined) :
    stripUndefList (v :: vs) = stripUndef v :: stripUndefList vs := by
  cases v with
  | undefined => exact absurd rfl h
  | null => rfl
  | bool b => rfl
  | num n => rfl
  | str s => rfl
  | arr xs => rfl
  | obj gs => rfl

/-- Unfolding of stripUndefFields on a field whose value is not
undefined. -/
theorem stripUndefFields_cons_ne (k : String) (v : JsValue)
    (fs : List (String × JsValue)) (h : v ≠ .undefined) :
    stripUndefFields ((k, v) :: fs) = (k, stripUndef v) :: stripUndefFields fs := by
  cases v with
  | undefined => exact absurd rfl h
  | null => rfl
  | bool b => rfl
  | num n => rfl
  | str s => rfl
  | arr xs => rfl
  | obj gs => rfl

mutual

/-- stringify-then-parse is the identity on an undefined-free value. -/
theorem stripUndef_id : ∀ v : JsValue, hasUndef v = false → stripUndef v = v
  | .undefined, h => by simp [hasUndef] at h
  | .null, _ => rfl
  | .bool _, _ => rfl
  | .num _, _ => rfl
  | .str _, _ => rfl
  | .arr xs, h => by
    rw [stripUndef, stripUndefList_id xs (by simpa [hasUndef] using h)]
  | .obj fs, h => by
    rw [stripUndef, stripUndefFields_id fs (by simpa [hasUndef] using h)]

/-- stripUndefList is the identity on undefined-free elements. -/
theorem stripUndefList_id : ∀ xs : List JsValue, hasUndefList xs = false → stripUndefList xs = xs
  | [], _ => rfl
  | v :: vs, h => by
    have h1 : hasUndef v = false := by
      simp [hasUndefList] at h
      exact h.1
    have h2 : hasUndefList vs = false := by
      simp [hasUndefList] at h
      exact h.2
    rw [stripUndefList_cons_ne v vs (by intro hc; subst hc; simp [hasUndef] at h1),
        stripUndef_id _ h1, stripUndefList_id vs h2]

/-- stripUndefFields is the identity on undefined-free field values. -/
theorem stripUndefFields_id :
    ∀ fs : List (String × JsValue), hasUndefFields fs = false → stripUndefFields fs = fs
  | [], _ => rfl
  | (k, v) :: fs, h => by
    have h1 : hasUndef v = false := by
      simp [hasUndefFields] at h
      exact h.1
    have h2 : hasUndefFields fs = false := by
      simp [hasUndefFields] at h
      exact h.2
    rw [stripUndefFields_cons_ne k v fs (by intro hc; subst hc; simp [hasUndef] at h1),
        stripUndef_id _ h1, stripUndefFields_id fs h2]

end

/-- A protocol id is untouched by serialization. -/
theorem stripUndef_of_isId (i : JsValue) (hi : IsId i) : stripUndef i = i := by
  rcases hi with h | ⟨s, h⟩ | ⟨n, h⟩ <;> subst h <;> rfl

/-- A protocol id is not undefined. -/
theorem isId_ne_undef (i : JsValue) (hi : IsId i) : i ≠ .undefined := by
  rcases hi with h | ⟨s, h⟩ | ⟨n, h⟩ <;> subst h <;> exact fun hc => JsValue.noConfusion hc

/-- The catch clause of processJsonRpcMessage: a thrown error becomes
the -32603 response carrying the error message in data, addressed to
the id read from the message. -/
theorem processJsonRpcMessage_catch (msg i : JsValue) (e : JsError)
    (hpe : processTry msg = .error e) (hid : getField msg "id" = .ok i) :
    processJsonRpcMessage msg
      = .ok (createJsonRpcResponse i .null
          (mkErrorData (-32603) "Internal error" (.str e.message))) := by
  unfold processJsonRpcMessage
  rw [hpe, hid]

/-- A valid-version tools/call message is routed to handleToolsCall. -/
theorem processTry_toolsCall (msg : JsValue)
    (hv : getField msg "jsonrpc" = .ok (.str "2.0"))
    (hm : getField msg "method" = .ok (.str "tools/call")) :
    processTry msg = handleToolsCall msg := by
  unfold processTry
  rw [hv, hm]
  simp [isStr]

/-- After the stream is down, a step writes nothing and the stream
stays down. -/
theorem sseStep_closed (s : SseState) (e : SseEvent) (h : s.streamOpen = false) :
    (sseStep s e).written = s.written ∧ (sseStep s e).streamOpen = false := by
  cases e <;> simp [sseStep, h] <;> split <;> simp [h]

/-- After the stream is down, no run of further events writes any
frame. -/
theorem sseRun_closed (s : SseState) (evs : List SseEvent) (h : s.streamOpen = false) :
    (sseRun s evs).written = s.written := by
  induction evs generalizing s with
  | nil => rfl
  | cons e evs ih =>
    have hs := sseStep_closed s e h
    have hrun : sseRun s (e :: evs) = sseRun (sseStep s e) evs := rfl
    rw [hrun, ih (sseStep s e) hs.2, hs.1]

/-! ## Claims -/

/-- C1 (counterexample): the dispatcher is not total on every input
message.  On the input JSON null — a parseable POST body — the try
block throws on reading message.jsonrpc, and the catch clause itself
rethrows on reading message.id, so the exception escapes the
dispatcher boundary instead of becoming a -32603 response. -/
theorem spec_c1_counterexample :
    processJsonRpcMessage JsValue.null
      = Except.error ⟨"Cannot read properties of null (reading id)"⟩ := rfl

/-- C1 (amended): for every input message other than null (and the
unparseable undefined), processJsonRpcMessage returns a well-formed
JsonRpcResponse and never throws; and whenever the try block threw
with some error, the result is the -32603 InternalError response whose
data field carries that error's description. -/
theorem spec_c1_total (msg : JsValue) (h1 : msg ≠ .null) (h2 : msg ≠ .undefined) :
    (∃ r, processJsonRpcMessage msg = .ok r ∧ wellFormedResponse r = true) ∧
    (∀ (e : JsError) (i : JsValue), processTry msg = .error e → getField msg "id" = .ok i →
      processJsonRpcMessage msg
        = .ok (createJsonRpcResponse i .null
            (mkErrorData (-32603) "Internal error" (.str e.message)))) := by
  refine ⟨processJsonRpcMessage_total msg h1 h2, ?_⟩
  intro e i hpe hid
  exact processJsonRpcMessage_catch msg i e hpe hid

/-- C1 (witness): the amended theorem applied to a concrete tools/call
request with no params field: the handler throws and the dispatcher
answers -32603 with the thrown description in data. -/
theorem spec_c1_witness :
    (∃ r, processJsonRpcMessage toolsCallNoParams = .ok r ∧ wellFormedResponse r = true) ∧
    processJsonRpcMessage toolsCallNoParams
      = .ok (createJsonRpcResponse (.num 7) .null
          (mkErrorData (-32603) "Internal error"
            (.str "Cannot read properties of undefined (reading name)"))) :=
  ⟨(spec_c1_total toolsCallNoParams (fun hc => JsValue.noConfusion hc)
      (fun hc => JsValue.noConfusion hc)).1,
   (spec_c1_total toolsCallNoParams (fun hc => JsValue.noConfusion hc)
      (fun hc => JsValue.noConfusion hc)).2
     ⟨"Cannot read properties of undefined (reading name)"⟩ (.num 7) rfl rfl⟩

/-- C2 (counterexample): closing the stream before the 100 ms mark
cancels only the heartbeat interval: the delayed-notification timer
and the 50 s auto-close timer are still pending afterwards, and the
notification callback then executes on the dead stream. -/
theorem spec_c2_counterexample :
    (sseRun sseInit [SseEvent.clientClose]).notifyPending = true ∧
    (sseRun sseInit [SseEvent.clientClose]).autoClosePending = true ∧
    (sseRun sseInit [SseEvent.clientClose]).heartbeatActive = false ∧
    (sseRun sseInit [SseEvent.clientClose]).streamOpen = false ∧
    (sseRun sseInit [SseEvent.clientClose, SseEvent.notifyElapsed]).lateCallbacks
      = [TimerKind.notifyTools] :=
  ⟨rfl, rfl, rfl, rfl, rfl⟩

/-- C2 (amended): closing the stream (client disconnect or stream
error) cancels exactly the heartbeat interval; the 100 ms notification
timer and the 50 s auto-close timer stay pending and their callbacks
still execute after teardown.  No frame is written to the stream after
it is torn down (the late writes fail silently). -/
theorem spec_c2_amended :
    (∀ s : SseState,
      (sseStep s .clientClose).heartbeatActive = false ∧
      (sseStep s .clientClose).streamOpen = false ∧
      (sseStep s .clientClose).notifyPending = s.notifyPending ∧
      (sseStep s .clientClose).autoClosePending = s.autoClosePending ∧
      (sseStep s .streamError).heartbeatActive = false ∧
      (sseStep s .streamError).notifyPending = s.notifyPending ∧
      (sseStep s .streamError).autoClosePending = s.autoClosePending) ∧
    (∀ (s : SseState) (evs : List SseEvent), s.streamOpen = false →
      (sseRun s evs).written = s.written) :=
  ⟨fun _ => ⟨rfl, rfl, rfl, rfl, rfl, rfl, rfl⟩,
   fun s evs h => sseRun_closed s evs h⟩

/-- C2 (witness): the amended theorem at the initial session state and
at a torn-down state facing a heartbeat tick: no frame is written. -/
theorem spec_c2_witness :
    (sseStep sseInit .clientClose).heartbeatActive = false ∧
    (sseRun (sseStep sseInit .clientClose)
        [SseEvent.notifyElapsed, SseEvent.heartbeatElapsed, SseEvent.autoCloseElapsed]).written
      = (sseStep sseInit .clientClose).written :=
  ⟨(spec_c2_amended.1 sseInit).1,
   spec_c2_amended.2 (sseStep sseInit .clientClose)
     [SseEvent.notifyElapsed, SseEvent.heartbeatElapsed, SseEvent.autoCloseElapsed] rfl⟩

/-- C3 (counterexample): a message lacking an id — a notification — is
nevertheless answered: the ping notification receives a full response
envelope (its id field holding undefined, hence dropped by
serialization). -/
theorem spec_c3_counterexample :
    hasFieldB noIdPing "id" = false ∧
    processJsonRpcMessage noIdPing
      = .ok (.obj [("jsonrpc", .str "2.0"), ("id", .undefined), ("result", .obj [])]) :=
  ⟨rfl, rfl⟩

/-- C3 (amended): the dispatcher never inspects id presence: every
non-null inbound message whose id field is absent (reads as undefined)
is still answered with a well-formed response, whose id echoes that
undefined. -/
theorem spec_c3_notification_answered (msg : JsValue) (h1 : msg ≠ .null) (h2 : msg ≠ .undefined)
    (hid : getField msg "id" = .ok .undefined) :
    ∃ r, processJsonRpcMessage msg = .ok r ∧ getField r "id" = .ok .undefined ∧
      wellFormedResponse r = true := by
  obtain ⟨r, hr, hwf⟩ := processJsonRpcMessage_total msg h1 h2
  refine ⟨r, hr, ?_, hwf⟩
  rw [processJsonRpcMessage_id_echo msg r hr, hid]

/-- C3 (witness): the amended theorem at the concrete id-less ping. -/
theorem spec_c3_witness :
    ∃ r, processJsonRpcMessage noIdPing = .ok r ∧ getField r "id" = .ok .undefined ∧
      wellFormedResponse r = true :=
  spec_c3_notification_answered noIdPing (fun hc => JsValue.noConfusion hc)
    (fun hc => JsValue.noConfusion hc) rfl

/-- C4: a jsonrpc field differing from the string 2.0 is answered with
the -32600 InvalidRequest error; the response is fully determined by
the id alone — the right-hand side does not mention the method field,
so no routing on method takes place. -/
theorem spec_c4_invalid_version (msg v i : JsValue)
    (hv : getField msg "jsonrpc" = .ok v) (hne : v ≠ .str "2.0")
    (hid : getField msg "id" = .ok i) :
    processJsonRpcMessage msg
      = .ok (createJsonRpcResponse i .null
          (mkError (-32600) "Invalid Request: jsonrpc must be 2.0")) := by
  have hv' : isStr v "2.0" = false := isStr_eq_false_of_ne v "2.0" hne
  unfold processJsonRpcMessage processTry
  rw [hv]
  simp [hv', hid]

/-- C4 (witness): a request with jsonrpc 1.0 gets -32600. -/
theorem spec_c4_witness :
    processJsonRpcMessage
      (.obj [("jsonrpc", .str "1.0"), ("id", .num 3), ("method", .str "ping")])
      = .ok (createJsonRpcResponse (.num 3) .null
          (mkError (-32600) "Invalid Request: jsonrpc must be 2.0")) :=
  spec_c4_invalid_version
    (.obj [("jsonrpc", .str "1.0"), ("id", .num 3), ("method", .str "ping")])
    (.str "1.0") (.num 3) rfl (by simp) rfl

/-- C5: a valid-version request whose method is none of initialize,
tools/list, tools/call, ping is answered -32601 MethodNotFound; and a
tools/call naming an unregistered tool is likewise answered -32601. -/
theorem spec_c5_method_not_found (msg m i : JsValue)
    (hv : getField msg "jsonrpc" = .ok (.str "2.0"))
    (hm : getField msg "method" = .ok m)
    (hid : getField msg "id" = .ok i) :
    (m ≠ .str "initialize" → m ≠ .str "tools/list" → m ≠ .str "tools/call" → m ≠ .str "ping" →
      processJsonRpcMessage msg
        = .ok (createJsonRpcResponse i .null
            (mkError (-32601) ("Method not found: " ++ toDisplay m)))) ∧
    (m = .str "tools/call" →
      ∀ p nm, getField msg "params" = .ok p → getField p "name" = .ok nm →
        nm ≠ .str "search" → nm ≠ .str "retrieve" →
        processJsonRpcMessage msg
          = .ok (createJsonRpcResponse i .null
              (mkError (-32601) ("Method not found: " ++ toDisplay nm)))) := by
  have htwo : isStr (JsValue.str "2.0") "2.0" = true := rfl
  constructor
  · intro n1 n2 n3 n4
    unfold processJsonRpcMessage processTry
    rw [hv]
    simp [htwo, hm, hid,
          isStr_eq_false_of_ne m "initialize" n1,
          isStr_eq_false_of_ne m "tools/list" n2,
          isStr_eq_false_of_ne m "tools/call" n3,
          isStr_eq_false_of_ne m "ping" n4]
  · intro hmeq p nm hp hnm r1 r2
    subst hmeq
    have hptc := processTry_toolsCall msg hv hm
    obtain ⟨pne1, pne2⟩ := ne_of_getField_ok p nm "name" hnm
    obtain ⟨a, ha⟩ := getField_ok_of_ne p "arguments" pne1 pne2
    have hcall : handleToolsCall msg
        = .ok (createJsonRpcResponse i .null
            (mkError (-32601) ("Method not found: " ++ toDisplay nm))) := by
      unfold handleToolsCall
      rw [hp]
      simp [hnm, ha, hid,
            isStr_eq_false_of_ne nm "search" r1,
            isStr_eq_false_of_ne nm "retrieve" r2]
    unfold processJsonRpcMessage
    rw [hptc, hcall]

/-- C5 (witness): an unknown method and an unknown tool name both get
-32601, at concrete inputs. -/
theorem spec_c5_witness :
    (processJsonRpcMessage
        (.obj [("jsonrpc", .str "2.0"), ("id", .num 1), ("method", .str "shutdown")])
      = .ok (createJsonRpcResponse (.num 1) .null
          (mkError (-32601) ("Method not found: " ++ toDisplay (.str "shutdown"))))) ∧
    (processJsonRpcMessage
        (.obj [("jsonrpc", .str "2.0"), ("id", .num 2), ("method", .str "tools/call"),
               ("params", .obj [("name", .str "delete")])])
      = .ok (createJsonRpcResponse (.num 2) .null
          (mkError (-32601) ("Method not found: " ++ toDisplay (.str "delete"))))) :=
  ⟨(spec_c5_method_not_found
      (.obj [("jsonrpc", .str "2.0"), ("id", .num 1), ("method", .str "shutdown")])
      (.str "shutdown") (.num 1) rfl rfl rfl).1
      (by simp) (by simp) (by simp) (by simp),
   (spec_c5_method_not_found
      (.obj [("jsonrpc", .str "2.0"), ("id", .num 2), ("method", .str "tools/call"),
             ("params", .obj [("name", .str "delete")])])
      (.str "tools/call") (.num 2) rfl rfl rfl).2
      rfl (.obj [("name", .str "delete")]) (.str "delete") rfl rfl (by simp) (by simp)⟩

/-- C6: every valid tools/list request is answered with the result
object whose tools field is the TOOLS constant itself — the registry
entries, in their declaration order.  The right-hand side is the same
constant for every call, and TOOLS is a definition nothing else
writes. -/
theorem spec_c6_tools_list (msg i : JsValue)
    (hv : getField msg "jsonrpc" = .ok (.str "2.0"))
    (hm : getField msg "method" = .ok (.str "tools/list"))
    (hid : getField msg "id" = .ok i) :
    processJsonRpcMessage msg
      = .ok (createJsonRpcResponse i (.obj [("tools", .arr TOOLS)]) .null) := by
  unfold processJsonRpcMessage processTry handleToolsList
  rw [hv]
  simp [hm, hid, isStr]

/-- C6 (witness): a concrete tools/list call. -/
theorem spec_c6_witness :
    processJsonRpcMessage
      (.obj [("jsonrpc", .str "2.0"), ("id", .num 5), ("method", .str "tools/list")])
      = .ok (createJsonRpcResponse (.num 5) (.obj [("tools", .arr TOOLS)]) .null) :=
  spec_c6_tools_list
    (.obj [("jsonrpc", .str "2.0"), ("id", .num 5), ("method", .str "tools/list")])
    (.num 5) rfl rfl rfl

/-- C7: a non-parseable POST body produces exactly one frame, the
-32700 ParseError response with id null. -/
theorem spec_c7_parse_error (e : JsError) :
    handlePostBody (.error e) = [parseErrorResponse] ∧
    parseErrorResponse
      = .obj [("jsonrpc", .str "2.0"), ("id", .null),
              ("error", .obj [("code", .num (-32700)), ("message", .str "Parse error")])] :=
  ⟨rfl, rfl⟩

/-- C7 (witness): the parse-error frame at a concrete parse failure. -/
theorem spec_c7_witness :
    handlePostBody (.error ⟨"Unexpected token"⟩) = [parseErrorResponse] :=
  (spec_c7_parse_error ⟨"Unexpected token"⟩).1

/-- C8: serializing the output of createJsonRpcResponse and parsing it
back recovers the identical id, and the recovered envelope carries
exactly one of result and error: the result field (and no error field)
when called with a result, the error field (and no result field) when
called with an error object. -/
theorem spec_c8_roundtrip (i v : JsValue) (hi : IsId i) (hv : hasUndef v = false) :
    (∃ r, stringifyParse (createJsonRpcResponse i v .null) = some r ∧
       getField r "id" = .ok i ∧ hasFieldB r "result" = true ∧ hasFieldB r "error" = false) ∧
    (∀ fs, v = .obj fs →
      ∃ r, stringifyParse (createJsonRpcResponse i .null v) = some r ∧
        getField r "id" = .ok i ∧ hasFieldB r "error" = true ∧ hasFieldB r "result" = false) := by
  have hi_ne := isId_ne_undef i hi
  have hi_strip := stripUndef_of_isId i hi
  have hv_ne : v ≠ .undefined := by
    intro hc
    subst hc
    simp [hasUndef] at hv
  have hstr_ne : (JsValue.str "2.0") ≠ JsValue.undefined := fun hc => JsValue.noConfusion hc
  constructor
  · have h3 : stripUndefFields [("jsonrpc", .str "2.0"), ("id", i), ("result", v)]
        = [("jsonrpc", .str "2.0"), ("id", i), ("result", v)] := by
      rw [stripUndefFields_cons_ne _ _ _ hstr_ne,
          stripUndefFields_cons_ne _ _ _ hi_ne,
          stripUndefFields_cons_ne _ _ _ hv_ne,
          hi_strip, stripUndef_id v hv]
      rfl
    refine ⟨.obj [("jsonrpc", .str "2.0"), ("id", i), ("result", v)], ?_, rfl, rfl, rfl⟩
    show some (JsValue.obj (stripUndefFields [("jsonrpc", .str "2.0"), ("id", i), ("result", v)]))
        = some (JsValue.obj [("jsonrpc", .str "2.0"), ("id", i), ("result", v)])
    rw [h3]
  · intro fs hfs
    subst hfs
    have h3 : stripUndefFields [("jsonrpc", .str "2.0"), ("id", i), ("error", .obj fs)]
        = [("jsonrpc", .str "2.0"), ("id", i), ("error", stripUndef (.obj fs))] := by
      rw [stripUndefFields_cons_ne _ _ _ hstr_ne,
          stripUndefFields_cons_ne _ _ _ hi_ne,
          stripUndefFields_cons_ne _ _ _ hv_ne,
          hi_strip]
      rfl
    refine ⟨.obj [("jsonrpc", .str "2.0"), ("id", i), ("error", stripUndef (.obj fs))],
      ?_, rfl, rfl, rfl⟩
    show some (JsValue.obj (stripUndefFields [("jsonrpc", .str "2.0"), ("id", i), ("error", .obj fs)]))
        = some (JsValue.obj [("jsonrpc", .str "2.0"), ("id", i), ("error", stripUndef (.obj fs))])
    rw [h3]

/-- C8 (witness): the round trip at a numeric id, with a concrete
result object and a concrete error object. -/
theorem spec_c8_witness :
    (∃ r, stringifyParse (createJsonRpcResponse (.num 1) (.obj [("ok", .bool true)]) .null)
        = some r ∧ getField r "id" = .ok (.num 1) ∧ hasFieldB r "result" = true ∧
        hasFieldB r "error" = false) ∧
    (∃ r, stringifyParse (createJsonRpcResponse (.num 1) .null
          (.obj [("code", .num (-32700)), ("message", .str "Parse error")]))
        = some r ∧ getField r "id" = .ok (.num 1) ∧ hasFieldB r "error" = true ∧
        hasFieldB r "result" = false) :=
  ⟨(spec_c8_roundtrip (.num 1) (.obj [("ok", .bool true)])
      (Or.inr (Or.inr ⟨1, rfl⟩)) rfl).1,
   (spec_c8_roundtrip (.num 1)
      (.obj [("code", .num (-32700)), ("message", .str "Parse error")])
      (Or.inr (Or.inr ⟨1, rfl⟩)) rfl).2 _ rfl⟩

/-- C9: every response the dispatcher produces carries the id of the
message it answers, verbatim, whatever that id is (string, number,
null, or even an absent id read as undefined). -/
theorem spec_c9_id_echo (msg r : JsValue) (h : processJsonRpcMessage msg = .ok r) :
    getField r "id" = getField msg "id" :=
  processJsonRpcMessage_id_echo msg r h

/-- C9 (witness): the echo at a concrete ping with numeric id 42. -/
theorem spec_c9_witness :
    getField (.obj [("jsonrpc", .str "2.0"), ("id", .num 42), ("result", .obj [])]) "id"
      = getField pingMsg "id" :=
  spec_c9_id_echo pingMsg (.obj [("jsonrpc", .str "2.0"), ("id", .num 42), ("result", .obj [])])
    rfl

/-- C10: a tools/call naming a registered tool whose arguments field
is missing, or whose params field is missing entirely, is answered
with the -32603 InternalError response (never -32601, -32602, or a
crash): the missing-field access throws inside the handler and the
dispatcher catch converts it. -/
theorem spec_c10_missing_args (msg i : JsValue)
    (hv : getField msg "jsonrpc" = .ok (.str "2.0"))
    (hm : getField msg "method" = .ok (.str "tools/call"))
    (hid : getField msg "id" = .ok i)
    (hcase : getField msg "params" = .ok .undefined ∨
      (∃ p, getField msg "params" = .ok p ∧
        (getField p "name" = .ok (.str "search") ∨ getField p "name" = .ok (.str "retrieve")) ∧
        getField p "arguments" = .ok .undefined)) :
    ∃ d, processJsonRpcMessage msg
      = .ok (createJsonRpcResponse i .null (mkErrorData (-32603) "Internal error" d)) := by
  have hptc := processTry_toolsCall msg hv hm
  rcases hcase with hp | ⟨p, hp, hnm, hargs⟩
  · have hcall : handleToolsCall msg
        = .error ⟨"Cannot read properties of undefined (reading name)"⟩ := by
      unfold handleToolsCall
      rw [hp]
      rfl
    exact ⟨_, processJsonRpcMessage_catch msg i _ (hptc.trans hcall) hid⟩
  · rcases hnm with hnm | hnm
    · have hq : getField JsValue.undefined "query"
          = .error ⟨"Cannot read properties of undefined (reading query)"⟩ := rfl
      have hcall : handleToolsCall msg
          = .error ⟨"Cannot read properties of undefined (reading query)"⟩ := by
        unfold handleToolsCall
        rw [hp]
        simp [hnm, hargs, isStr, hq]
      exact ⟨_, processJsonRpcMessage_catch msg i _ (hptc.trans hcall) hid⟩
    · have ht : getField JsValue.undefined "type"
          = .error ⟨"Cannot read properties of undefined (reading type)"⟩ := rfl
      have hcall : handleToolsCall msg
          = .error ⟨"Cannot read properties of undefined (reading type)"⟩ := by
        unfold handleToolsCall
        rw [hp]
        simp [hnm, hargs, isStr, ht]
      exact ⟨_, processJsonRpcMessage_catch msg i _ (hptc.trans hcall) hid⟩

/-- C10 (witness): missing params and missing arguments both yield the
-32603 response, at concrete requests. -/
theorem spec_c10_witness :
    (∃ d, processJsonRpcMessage toolsCallNoParams
      = .ok (createJsonRpcResponse (.num 7) .null
          (mkErrorData (-32603) "Internal error" d))) ∧
    (∃ d, processJsonRpcMessage toolsCallNoArgs
      = .ok (createJsonRpcResponse (.num 8) .null
          (mkErrorData (-32603) "Internal error" d))) :=
  ⟨spec_c10_missing_args toolsCallNoParams (.num 7) rfl rfl rfl (Or.inl rfl),
   spec_c10_missing_args toolsCallNoArgs (.num 8) rfl rfl rfl
     (Or.inr ⟨.obj [("name", .str "search")], rfl, Or.inl rfl, rfl⟩)⟩

end GhlMcp
